import Mathlib

/-!
Verification of the data-normalization and visual-encoding pipeline of
`src/app.py` (Local-Market-Intelligence dashboard).

The Python pipeline (lines 514-542) turns the raw list of scraped records
into a pandas frame, extracts nested coordinates, drops rows lacking either
coordinate, coerces the numeric columns with `pd.to_numeric(errors='coerce').fillna(0)`,
and computes the KPI block (average rating over `Stars > 0`, most-visible row
via `idxmax`).  The visual encoders `get_color` / `get_size` live at lines
317-329, the opportunity score at line 109, and the AI-call retry loop at
lines 268-278.  All of this is embedded below as executable definitions over
`ℚ` (pandas floats), with missing cells (`NaN` / `None`) as `Option`.
-/

namespace MarketIntel

/-- The `location` cell of one raw scraped record: either a dict that may
contain `lat` / `lng` keys, or anything else (`null`, missing, non-dict) —
exactly the distinction tested by `isinstance(loc, dict)` at
src/app.py lines 526-527. -/
inductive LocValue
  | dict (lat lng : Option ℚ)
  | nondict
deriving DecidableEq

/-- One raw record as returned by the scrape provider, restricted to the five
columns selected at src/app.py line 518.  `totalScore` and `reviewsCount`
carry the result of `pd.to_numeric(errors='coerce')`: `none` models a cell
that is null/NaN or fails to parse as a number. -/
structure RawRecord where
  title : String
  address : String
  totalScore : Option ℚ
  reviewsCount : Option ℚ
  location : LocValue
deriving DecidableEq

/-- One row of the processed frame.  Every cell that pandas can hold as NaN
is an `Option ℚ`. -/
structure Row where
  name : String
  address : String
  stars : Option ℚ
  reviews : Option ℚ
  latitude : Option ℚ
  longitude : Option ℚ
deriving DecidableEq

/-- `loc.get('lat') if isinstance(loc, dict) else None` (src/app.py line 526). -/
def locLat : LocValue → Option ℚ
  | LocValue.dict lat _ => lat
  | LocValue.nondict => none

/-- `loc.get('lng') if isinstance(loc, dict) else None` (src/app.py line 527). -/
def locLng : LocValue → Option ℚ
  | LocValue.dict _ lng => lng
  | LocValue.nondict => none

/-- Column selection / renaming plus coordinate extraction
(src/app.py lines 518-527): one raw record becomes one frame row. -/
def extractRow (r : RawRecord) : Row :=
  { name := r.title
    address := r.address
    stars := r.totalScore
    reviews := r.reviewsCount
    latitude := locLat r.location
    longitude := locLng r.location }

/-- `df = df.dropna(subset=['Latitude', 'Longitude'])` (src/app.py line 528). -/
def dropnaLatLng (rows : List Row) : List Row :=
  rows.filter (fun s => s.latitude.isSome && s.longitude.isSome)

/-- `pd.to_numeric(..., errors='coerce').fillna(0)` applied to the `Stars`
and `Reviews Count` columns of one row (src/app.py lines 531-532): a missing
or unparseable cell becomes `0` in both columns. -/
def fillNumeric (s : Row) : Row :=
  { s with stars := some (s.stars.getD 0), reviews := some (s.reviews.getD 0) }

/-- The whole normalization pipeline of src/app.py lines 518-532, in source
order: extract columns and coordinates, drop rows missing a coordinate, then
coerce-and-fill the numeric columns. -/
def normalize (raws : List RawRecord) : List Row :=
  (dropnaLatLng (raws.map extractRow)).map fillNumeric

/-- Value of the `Stars` cell as pandas sees it in comparisons and sums
(after `fillna(0)` the cell is never NaN; `getD 0` is the identity there). -/
def starsVal (s : Row) : ℚ := s.stars.getD 0

/-- Value of the `Reviews Count` cell, as `starsVal`. -/
def reviewsVal (s : Row) : ℚ := s.reviews.getD 0

/-- `df[df['Stars'] > 0]['Stars'].mean()` (src/app.py line 535): the mean of
the strictly positive `Stars` cells; `none` models the NaN that pandas
returns for the mean of an empty selection. -/
def avg_rating (df : List Row) : Option ℚ :=
  let pos := df.filter (fun s => starsVal s > 0)
  if pos.length = 0 then none
  else some ((pos.map starsVal).sum / (pos.length : ℚ))

/-- `f"{avg_rating:.2f}"`: render a rational to two decimal places. -/
def format2 (q : ℚ) : String :=
  let c : ℤ := round (q * 100)
  let w : ℤ := c / 100
  let f : ℕ := (c % 100).toNat
  toString w ++ "." ++ (if f < 10 then "0" ++ toString f else toString f)

/-- `f"{avg_rating:.2f} Stars" if not pd.isna(avg_rating) else "N/A"`
(src/app.py line 540). -/
def render_avg : Option ℚ → String
  | none => "N/A"
  | some q => format2 q ++ " Stars"

/-- `Series.idxmax` over a list of values: position and value of the first
maximum; `none` on an empty series, where pandas raises
`ValueError: attempt to get argmax of an empty sequence`. -/
def idxmax : List ℚ → Option (ℕ × ℚ)
  | [] => none
  | x :: xs =>
    match idxmax xs with
    | none => some (0, x)
    | some (j, m) => if m > x then some (j + 1, m) else some (0, x)

/-- `df.loc[df['Reviews Count'].idxmax()]` (src/app.py line 536): the first
row attaining the maximal review count; `none` models the `ValueError`
raised on an empty frame. -/
def most_visible (df : List Row) : Option Row :=
  match idxmax (df.map reviewsVal) with
  | none => none
  | some p => df.get? p.1

/-- The KPI block stored in `st.session_state.kpis` (src/app.py lines 538-542). -/
structure KPIs where
  total_businesses : ℕ
  average_rating : Option ℚ
  most_visible_row : Row
deriving DecidableEq

/-- The KPI computation of src/app.py lines 534-542.  `none` models the
exception propagating out of `idxmax` on an empty normalized frame (caught
only by the top-level handler at line 558, which discards all results). -/
def compute_kpis (df : List Row) : Option KPIs :=
  match most_visible df with
  | none => none
  | some mv =>
      some { total_businesses := df.length
             average_rating := avg_rating df
             most_visible_row := mv }

/-- `get_color` (src/app.py lines 317-322): five-way rating → hex color. -/
def get_color (rating : ℚ) : String :=
  if rating ≥ 45/10 then "#27ae60"
  else if rating ≥ 4 then "#2ecc71"
  else if rating ≥ 35/10 then "#f1c40f"
  else if rating ≥ 3 then "#e67e22"
  else "#e74c3c"

/-- `get_size` (src/app.py lines 324-329): five-step review count → radius. -/
def get_size (reviews : ℤ) : ℕ :=
  if reviews ≥ 200 then 15
  else if reviews ≥ 100 then 12
  else if reviews ≥ 50 then 9
  else if reviews ≥ 20 then 6
  else 4

/-- `low_review = len(df[df['Reviews Count'] < 10])` (src/app.py line 108). -/
def low_review (df : List Row) : ℕ :=
  (df.filter (fun s => reviewsVal s < 10)).length

/-- `opportunity_score = min(10, max(1, (low_review / len(df) * 10) if len(df) > 0 else 5))`
(src/app.py line 109). -/
def opportunity_score (df : List Row) : ℚ :=
  min 10 (max 1 (if df.length > 0 then (low_review df : ℚ) / (df.length : ℚ) * 10 else 5))

/-- The retry loop of `generate_enhanced_analysis` (src/app.py lines 268-278),
run with `remaining` attempts left out of `max_retries = 3`.  The provider is
indexed by attempt number and either raises (`Except.error`) or returns the
response text (possibly empty: `if response.text` falls through on empty
text without sleeping).  Returns the number of provider invocations together
with the outcome: `Except.ok (some t)` a returned text, `Except.ok none` the
implicit `None` after the loop exhausts on empty texts, `Except.error e` the
re-raised exception of the last attempt. -/
def retry_generate (provider : ℕ → Except String String) : ℕ → ℕ × Except String (Option String)
  | 0 => (0, Except.ok none)
  | remaining + 1 =>
    match provider (3 - (remaining + 1)) with
    | Except.ok t =>
        if t = "" then
          let r := retry_generate provider remaining
          (r.1 + 1, r.2)
        else (1, Except.ok (some t))
    | Except.error e =>
        if remaining = 0 then (1, Except.error e)
        else
          let r := retry_generate provider remaining
          (r.1 + 1, r.2)

/-- `generate_enhanced_analysis`'s model call with `max_retries = 3`
(src/app.py lines 269-270): invocation count and outcome. -/
def generate_analysis_runs (provider : ℕ → Except String String) : ℕ × Except String (Option String) :=
  retry_generate provider 3

/-- The Export Report button (src/app.py lines 581-582) produces no download
artifact: its only effect is `st.info(...)`.  `none` records that no CSV (or
any other file) is generated anywhere in the program. -/
def export_report_csv : Option String := none

/-- The message shown by the Export Report button (src/app.py line 582). -/
def export_report_output : String := "Export functionality will be available in the premium version!"

/-- The header line that Scenario C of the spec expects from the CSV export. -/
def scenarioC_header : String := "Business Name,Address,Stars,Reviews Count"

/-- Spec-side predicate: the raw record's location sub-object is present, is
a mapping, and contains both coordinates (spec section 4.1, coordinate
extraction). -/
def hasCoordsSpec (r : RawRecord) : Bool :=
  match r.location with
  | LocValue.dict (some _) (some _) => true
  | _ => false

/-- Spec-side mean: `none` on the empty list, else sum/length. -/
def mean? (xs : List ℚ) : Option ℚ :=
  if xs.length = 0 then none else some (xs.sum / (xs.length : ℚ))

/-- Spec-side list of the known ratings among retained records: records that
survive coordinate filtering and whose rating parsed successfully (spec:
"arithmetic mean of all records with a known rating"). -/
def knownRatings (raws : List RawRecord) : List ℚ :=
  (raws.filter hasCoordsSpec).filterMap (fun r => r.totalScore)

/-- Spec-side `averageRating`: arithmetic mean over exactly the retained
records with a known rating, `none` when there is none. -/
def averageRating_spec (raws : List RawRecord) : Option ℚ :=
  mean? (knownRatings raws)

/-- Spec-side list of known strictly positive ratings among retained records
(what the code's `Stars > 0` filter actually averages). -/
def knownPosRatings (raws : List RawRecord) : List ℚ :=
  (knownRatings raws).filter (fun q => 0 < q)

/-- Scenario B, record "X" (spec section 8): null rating, 3 reviews,
coordinates (1, 2). -/
def scenarioB_X : RawRecord :=
  { title := "X"
    address := ""
    totalScore := none
    reviewsCount := some 3
    location := LocValue.dict (some 1) (some 2) }

/-- Scenario B, record "Y" (spec section 8): rating 4.2, 3000 reviews,
`location: null`. -/
def scenarioB_Y : RawRecord :=
  { title := "Y"
    address := ""
    totalScore := some (42/10)
    reviewsCount := some 3000
    location := LocValue.nondict }

/-- The Scenario B raw input of spec section 8. -/
def scenarioB : List RawRecord := [scenarioB_X, scenarioB_Y]

/-!  Theorems for the frozen claims.  -/

/-- Claim C8: the marker-size function is monotone — for review counts
`c1 ≤ c2`, `get_size c1 ≤ get_size c2` — and every returned size lies in the
fixed display bounds `[4, 15]`. -/
theorem C8_marker_size_monotone_bounded (c1 c2 : ℤ) (h : c1 ≤ c2) :
    get_size c1 ≤ get_size c2 ∧ 4 ≤ get_size c1 ∧ get_size c1 ≤ 15 := by
  unfold get_size
  split_ifs <;> omega

/-- Witness for C8 at the concrete review counts 10 and 250. -/
theorem C8_witness :
    get_size 10 ≤ get_size 250 ∧ 4 ≤ get_size 10 ∧ get_size 10 ≤ 15 :=
  C8_marker_size_monotone_bounded 10 250 (by decide)

/-- Claim C10: the opportunity score always lies in `[1, 10]`, and on the
empty frame it is exactly `5`. -/
theorem C10_opportunity_score_bounds (df : List Row) :
    1 ≤ opportunity_score df ∧ opportunity_score df ≤ 10 ∧
      opportunity_score ([] : List Row) = 5 := by
  refine ⟨?_, ?_, ?_⟩
  · exact le_min (by norm_num) (le_max_left 1 _)
  · exact min_le_left 10 _
  · norm_num [opportunity_score]

/-- Witness for C10 at the empty frame. -/
theorem C10_witness :
    1 ≤ opportunity_score ([] : List Row) ∧ opportunity_score ([] : List Row) ≤ 10 ∧
      opportunity_score ([] : List Row) = 5 :=
  C10_opportunity_score_bounds []

/-- Claim C5 counterexample: the color encoder is not the claimed three-way
function.  Ratings 3.2 and 3.7 are both below 4.0, so the claim puts both in
the single "poor (red)" class, but the code returns two different colors
(orange and yellow), neither of which is red. -/
theorem C5_counterexample :
    get_color (32/10) = "#e67e22" ∧ get_color (37/10) = "#f1c40f" ∧
      get_color (32/10) ≠ get_color (37/10) ∧
      get_color (37/10) ≠ "#e74c3c" := by
  have ha : get_color (32/10) = "#e67e22" := by norm_num [get_color]
  have hb : get_color (37/10) = "#f1c40f" := by norm_num [get_color]
  refine ⟨ha, hb, ?_, ?_⟩
  · rw [ha, hb]; decide
  · rw [hb]; decide

/-- Claim C5 amended: `get_color` is the pure five-way threshold function of
src/app.py lines 317-322 — `rating ≥ 4.5` → dark green `#27ae60`,
`4.0 ≤ rating < 4.5` → green `#2ecc71`, `3.5 ≤ rating < 4.0` → yellow
`#f1c40f`, `3.0 ≤ rating < 3.5` → orange `#e67e22`, `rating < 3.0`
(including an unknown rating, which reaches it as `0`) → red `#e74c3c`; no
other color is ever produced. -/
theorem C5_amended_five_way (r : ℚ) :
    (45/10 ≤ r → get_color r = "#27ae60") ∧
      (4 ≤ r ∧ r < 45/10 → get_color r = "#2ecc71") ∧
      (35/10 ≤ r ∧ r < 4 → get_color r = "#f1c40f") ∧
      (3 ≤ r ∧ r < 35/10 → get_color r = "#e67e22") ∧
      (r < 3 → get_color r = "#e74c3c") ∧
      get_color 0 = "#e74c3c" ∧
      (get_color r = "#27ae60" ∨ get_color r = "#2ecc71" ∨
        get_color r = "#f1c40f" ∨ get_color r = "#e67e22" ∨
        get_color r = "#e74c3c") := by
  refine ⟨?_, ?_, ?_, ?_, ?_, by norm_num [get_color], ?_⟩
  · intro h
    unfold get_color; split_ifs with h1 h2 h3 h4 <;> first | rfl | linarith
  · rintro ⟨ha, hb⟩
    unfold get_color; split_ifs with h1 h2 h3 h4 <;> first | rfl | linarith
  · rintro ⟨ha, hb⟩
    unfold get_color; split_ifs with h1 h2 h3 h4 <;> first | rfl | linarith
  · rintro ⟨ha, hb⟩
    unfold get_color; split_ifs with h1 h2 h3 h4 <;> first | rfl | linarith
  · intro h
    unfold get_color; split_ifs with h1 h2 h3 h4 <;> first | rfl | linarith
  · unfold get_color; split_ifs <;> simp

/-- Witness for C5 amended at rating 4.2, which falls in the green band. -/
theorem C5_witness :
    (4 ≤ (42/10 : ℚ) ∧ (42/10 : ℚ) < 45/10) ∧ get_color (42/10) = "#2ecc71" :=
  ⟨by norm_num, (C5_amended_five_way (42/10)).2.1 (by norm_num)⟩

/-- Claim C6 counterexample: the program produces no CSV export at all — the
Export Report button yields no download artifact, only an informational
message, and that message is not the claimed CSV header line. -/
theorem C6_counterexample :
    export_report_csv = none ∧
      export_report_output ≠ scenarioC_header := by
  refine ⟨rfl, ?_⟩
  decide

/-- Claim C6 amended: the Export Report button is a placeholder — it
generates no CSV (or any file) and only displays the message "Export
functionality will be available in the premium version!". -/
theorem C6_amended_placeholder :
    export_report_csv = none ∧
      export_report_output = "Export functionality will be available in the premium version!" :=
  ⟨rfl, rfl⟩

/-- Claim C3: the KPI computation fails on an empty normalized frame.  The
raw input `[scenarioB_Y]` is non-empty (so it passes the `if not items`
guard at line 511 and reaches aggregation), normalization drops its only
record (missing location), and `compute_kpis` on the resulting empty frame
yields `none` — the model of the `ValueError` raised by
`df['Reviews Count'].idxmax()` — instead of the claimed `count = 0` with
unknown scalar metrics. -/
theorem C3_empty_aggregation_fails :
    ([scenarioB_Y] : List RawRecord) ≠ [] ∧
      normalize [scenarioB_Y] = [] ∧
      compute_kpis (normalize [scenarioB_Y]) = none := by
  refine ⟨by simp, rfl, rfl⟩

/-- A narrative-provider behavior whose first attempt raises (e.g. a quota
error) and whose second attempt returns text. -/
def failing_then_ok_provider : ℕ → Except String String :=
  fun n => if n = 0 then Except.error ("quota exceeded") else Except.ok ("analysis text")

/-- Claim C4 counterexample: the narrative-insight provider is not invoked
exactly once.  With a provider whose first attempt raises, the retry loop of
`generate_enhanced_analysis` (src/app.py lines 268-278) invokes it twice. -/
theorem C4_counterexample :
    (generate_analysis_runs failing_then_ok_provider).1 = 2 ∧
      (generate_analysis_runs failing_then_ok_provider).1 ≠ 1 := by
  have h2 : (generate_analysis_runs failing_then_ok_provider).1 = 2 := rfl
  exact ⟨h2, by omega⟩

/-- Invocation-count bounds for the retry loop: with `m` attempts remaining
the provider is invoked at most `m` times, and at least once when `m ≥ 1`. -/
theorem retry_generate_count_le (p : ℕ → Except String String) :
    ∀ m : ℕ, (retry_generate p m).1 ≤ m ∧ (1 ≤ m → 1 ≤ (retry_generate p m).1) := by
  intro m
  induction m with
  | zero => simp [retry_generate]
  | succ k ih =>
      obtain ⟨ih1, ih2⟩ := ih
      cases hp : p (3 - (k + 1)) with
      | ok t =>
          by_cases ht : t = ""
          · have e : (retry_generate p (k + 1)).1 = (retry_generate p k).1 + 1 := by
              rw [retry_generate, hp]
              simp [ht]
            rw [e]
            exact ⟨by omega, fun _ => by omega⟩
          · have e : (retry_generate p (k + 1)).1 = 1 := by
              rw [retry_generate, hp]
              simp [ht]
            rw [e]
            exact ⟨by omega, fun _ => by omega⟩
      | error err =>
          by_cases hk : k = 0
          · have e : (retry_generate p (k + 1)).1 = 1 := by
              subst hk
              rw [retry_generate, hp]
              simp
            rw [e]
            exact ⟨by omega, fun _ => by omega⟩
          · have e : (retry_generate p (k + 1)).1 = (retry_generate p k).1 + 1 := by
              rw [retry_generate, hp]
              simp [hk]
            rw [e]
            exact ⟨by omega, fun _ => by omega⟩

/-- Claim C4 amended: the scrape provider is called exactly once (it has a
single call site with no loop, src/app.py line 505), but the
narrative-insight provider is wrapped in a retry loop with `max_retries = 3`
(src/app.py lines 268-278): per execution it is invoked between 1 and 3
times, and exactly once only when the first attempt returns non-empty
text. -/
theorem C4_amended_retry_loop (p : ℕ → Except String String) :
    1 ≤ (generate_analysis_runs p).1 ∧ (generate_analysis_runs p).1 ≤ 3 ∧
      (∀ t, p 0 = Except.ok t → t ≠ "" → (generate_analysis_runs p).1 = 1) := by
  obtain ⟨h1, h2⟩ := retry_generate_count_le p 3
  refine ⟨h2 (by omega), h1, ?_⟩
  intro t hp ht
  have hstep : retry_generate p 3 = (1, Except.ok (some t)) := by
    rw [retry_generate, show (3 - 3 : ℕ) = 0 from rfl, hp]
    simp [ht]
  simp [generate_analysis_runs, hstep]

/-- A narrative-provider behavior that succeeds immediately. -/
def ok_provider : ℕ → Except String String := fun _ => Except.ok ("analysis text ok")

/-- Witness for C4 amended: a provider succeeding on the first attempt is
invoked exactly once. -/
theorem C4_witness : (generate_analysis_runs ok_provider).1 = 1 :=
  (C4_amended_retry_loop ok_provider).2.2 ("analysis text ok") rfl (by decide)

/-- The dropna predicate agrees, through `extractRow`, with the spec-side
"location present, a mapping, with both coordinates" predicate. -/
theorem keep_extract_eq_hasCoordsSpec (r : RawRecord) :
    ((extractRow r).latitude.isSome && (extractRow r).longitude.isSome) = hasCoordsSpec r := by
  cases hl : r.location with
  | dict lat lng =>
      cases lat <;> cases lng <;>
        simp [extractRow, locLat, locLng, hasCoordsSpec, hl]
  | nondict => simp [extractRow, locLat, locLng, hasCoordsSpec, hl]

/-- Normalization characterized from the spec side: the output is exactly
the raw records with both coordinates, in order, each extracted and
numeric-filled. -/
theorem normalize_eq_filter_map (raws : List RawRecord) :
    normalize raws =
      (raws.filter hasCoordsSpec).map (fun r => fillNumeric (extractRow r)) := by
  unfold normalize dropnaLatLng
  rw [List.filter_map]
  simp only [Function.comp_def]
  rw [List.filter_congr (fun r _ => keep_extract_eq_hasCoordsSpec r)]
  simp [List.map_map, Function.comp_def]

/-- Claim C7: every record retained by the normalizer has both coordinates
present, and the normalized output is exactly the normalization, in order,
of the raw records whose location sub-object is present, is a mapping, and
contains both coordinates — all other raw records are dropped (never
defaulted) and the remaining ones are unaffected. -/
theorem C7_coordinate_invariant (raws : List RawRecord) :
    (∀ s ∈ normalize raws, s.latitude.isSome ∧ s.longitude.isSome) ∧
      normalize raws =
        (raws.filter hasCoordsSpec).map (fun r => fillNumeric (extractRow r)) := by
  constructor
  · intro s hs
    simp only [normalize, dropnaLatLng, List.mem_map] at hs
    obtain ⟨t, ht, rfl⟩ := hs
    rw [List.mem_filter] at ht
    have h2 := ht.2
    rw [Bool.and_eq_true] at h2
    constructor
    · simpa [fillNumeric] using h2.1
    · simpa [fillNumeric] using h2.2
  · exact normalize_eq_filter_map raws

/-- Witness for C7 at the Scenario B input: only the record with both
coordinates survives, normalized in place. -/
theorem C7_witness :
    normalize scenarioB =
      (scenarioB.filter hasCoordsSpec).map (fun r => fillNumeric (extractRow r)) :=
  (C7_coordinate_invariant scenarioB).2

/-- The `Stars` cell of a normalized record is the parsed rating when the
parse succeeded and `0` otherwise. -/
theorem starsVal_norm (r : RawRecord) :
    starsVal (fillNumeric (extractRow r)) = r.totalScore.getD 0 := by
  simp [starsVal, fillNumeric, extractRow]

/-- The positive `Stars` values of the normalized rows of `l` are exactly
the successfully parsed, strictly positive ratings of `l`, in order. -/
theorem posStars_norm (l : List RawRecord) :
    ((l.map (fun r => fillNumeric (extractRow r))).filter
        (fun s => starsVal s > 0)).map starsVal
      = (l.filterMap (fun r => r.totalScore)).filter (fun q => 0 < q) := by
  induction l with
  | nil => rfl
  | cons r t ih =>
      cases hsc : r.totalScore with
      | none =>
          have hl : starsVal (fillNumeric (extractRow r)) = 0 := by
            rw [starsVal_norm, hsc]
            rfl
          simp [List.filter_cons, List.filterMap_cons, hsc, hl, ih]
      | some q =>
          have hl : starsVal (fillNumeric (extractRow r)) = q := by
            rw [starsVal_norm, hsc]
            rfl
          by_cases hq : 0 < q
          · simp [List.filter_cons, List.filterMap_cons, hsc, hl, hq, ih]
          · simp [List.filter_cons, List.filterMap_cons, hsc, hl, hq, ih]

/-- What the code's average actually is: the mean over the retained records
whose rating parsed to a strictly positive value. -/
theorem avg_rating_normalize (raws : List RawRecord) :
    avg_rating (normalize raws) = mean? (knownPosRatings raws) := by
  have key : ((normalize raws).filter (fun s => starsVal s > 0)).map starsVal
      = knownPosRatings raws := by
    rw [normalize_eq_filter_map, posStars_norm]
    rfl
  have hlen : ((normalize raws).filter (fun s => starsVal s > 0)).length
      = (knownPosRatings raws).length := by
    rw [← key, List.length_map]
  simp only [avg_rating, mean?]
  rw [hlen, key]

/-- Claim C2 amended: `averageRating` is the arithmetic mean over exactly
the retained records whose rating is known **and strictly positive** (a
known rating of exactly 0 is excluded along with the unknown ones); it is
`none` — rendered "N/A" — when no such record exists, so unknown ratings are
never averaged in as 0; and on the Scenario B input it is "N/A". -/
theorem C2_amended_average_rating :
    (∀ raws : List RawRecord,
        avg_rating (normalize raws) = mean? (knownPosRatings raws)) ∧
      avg_rating (normalize scenarioB) = none ∧
      render_avg (avg_rating (normalize scenarioB)) = "N/A" := by
  refine ⟨avg_rating_normalize, ?_, ?_⟩
  · rw [avg_rating_normalize]
    rfl
  · rw [avg_rating_normalize]
    rfl

/-- Witness for C2 amended at the Scenario B input: the average renders as
"N/A". -/
theorem C2_witness : avg_rating (normalize scenarioB) = none :=
  C2_amended_average_rating.2.1

/-- A raw record with a genuine rating of exactly 0 and both coordinates. -/
def rawR0 : RawRecord :=
  { title := "Zero Rated"
    address := ""
    totalScore := some 0
    reviewsCount := some 7
    location := LocValue.dict (some 1) (some 1) }

/-- A raw record with rating 4 and both coordinates. -/
def rawR4 : RawRecord :=
  { title := "Four Rated"
    address := ""
    totalScore := some 4
    reviewsCount := some 9
    location := LocValue.dict (some 2) (some 2) }

/-- Claim C2 counterexample: on the input `[rawR0, rawR4]` — two retained
records with known ratings 0 and 4 — the claimed mean over exactly the
known-rating records is 2, but the code averages only the strictly positive
stars and returns 4. -/
theorem C2_counterexample :
    avg_rating (normalize [rawR0, rawR4]) = some 4 ∧
      averageRating_spec [rawR0, rawR4] = some 2 ∧
      avg_rating (normalize [rawR0, rawR4]) ≠ averageRating_spec [rawR0, rawR4] := by
  have h1 : avg_rating (normalize [rawR0, rawR4]) = some 4 := by
    rw [avg_rating_normalize]
    norm_num [knownPosRatings, knownRatings, hasCoordsSpec, mean?, rawR0, rawR4,
      List.filter_cons, List.filterMap_cons]
  have h2 : averageRating_spec [rawR0, rawR4] = some 2 := by
    norm_num [averageRating_spec, knownRatings, hasCoordsSpec, mean?, rawR0, rawR4,
      List.filter_cons, List.filterMap_cons]
  refine ⟨h1, h2, ?_⟩
  rw [h1, h2]
  norm_num

/-- A record passes the coordinate filter exactly when its location is a
mapping holding both coordinates. -/
theorem hasCoordsSpec_eq_true_iff (r : RawRecord) :
    hasCoordsSpec r = true ↔
      ∃ a b, r.location = LocValue.dict (some a) (some b) := by
  unfold hasCoordsSpec
  cases hl : r.location with
  | dict lat lng =>
      cases lat with
      | none => simp
      | some a =>
          cases lng with
          | none => simp
          | some b => simp
  | nondict => simp

/-- A raw record whose rating and review count both fail to parse, with both
coordinates present. -/
def rbad : RawRecord :=
  { title := "Unparseable"
    address := ""
    totalScore := none
    reviewsCount := none
    location := LocValue.dict (some 1) (some 1) }

/-- Claim C1 counterexample: for a retained record whose rating fails to
parse, the normalizer stores the rating as the **value 0** — not as an
absent rating — and this is the very same default the review-count column
receives, so the two fields are conflated onto the same stored default. -/
theorem C1_counterexample :
    (normalize [rbad]).map (fun s => s.stars) = [some 0] ∧
      (normalize [rbad]).map (fun s => s.stars) ≠ [(none : Option ℚ)] ∧
      (normalize [rbad]).map (fun s => s.reviews) = [some 0] ∧
      (normalize [rbad]).map (fun s => s.stars)
        = (normalize [rbad]).map (fun s => s.reviews) := by
  refine ⟨rfl, ?_, rfl, rfl⟩
  simp [normalize, dropnaLatLng, extractRow, locLat, locLng, fillNumeric, rbad]

/-- Claim C1 amended: both numeric columns share the stored default 0 — a
rating parse failure is stored as stars = 0 (not as an absent value) and a
review-count parse failure as reviews = 0; the "absent rating" policy is
realized only downstream, by the `Stars > 0` filter that keeps such records
out of the average. -/
theorem C1_amended_defaulting (r : RawRecord) (hc : hasCoordsSpec r = true) :
    (r.totalScore = none →
        (normalize [r]).map (fun s => s.stars) = [some 0] ∧
          avg_rating (normalize [r]) = none) ∧
      (r.reviewsCount = none →
        (normalize [r]).map (fun s => s.reviews) = [some 0]) := by
  obtain ⟨a, b, hloc⟩ := (hasCoordsSpec_eq_true_iff r).1 hc
  constructor
  · intro hts
    constructor
    · simp [normalize, dropnaLatLng, extractRow, locLat, locLng, fillNumeric, hloc, hts]
    · rw [avg_rating_normalize]
      simp [knownPosRatings, knownRatings, mean?, List.filter_cons, List.filterMap_cons,
        hc, hts]
  · intro hrc
    simp [normalize, dropnaLatLng, extractRow, locLat, locLng, fillNumeric, hloc, hrc]

/-- Witness for C1 amended at the concrete unparseable record `rbad`. -/
theorem C1_witness :
    ((normalize [rbad]).map (fun s => s.stars) = [some 0] ∧
        avg_rating (normalize [rbad]) = none) ∧
      (normalize [rbad]).map (fun s => s.reviews) = [some 0] := by
  have h := C1_amended_defaulting rbad (by rfl)
  exact ⟨h.1 rfl, h.2 rfl⟩

/-- Claim C9: after normalization a genuine rating of exactly 0 is
indistinguishable from an absent rating — the normalized rows coincide, such
a record is excluded from the average (the mean filters on stars strictly
greater than 0), and it renders in the lowest color class (red). -/
theorem C9_zero_rating_indistinguishable (r : RawRecord) (hc : hasCoordsSpec r = true) :
    normalize [{ r with totalScore := some 0 }]
        = normalize [{ r with totalScore := none }] ∧
      avg_rating (normalize [{ r with totalScore := some 0 }]) = none ∧
      get_color 0 = "#e74c3c" := by
  obtain ⟨a, b, hloc⟩ := (hasCoordsSpec_eq_true_iff r).1 hc
  refine ⟨?_, ?_, by norm_num [get_color]⟩
  · simp [normalize, dropnaLatLng, extractRow, locLat, locLng, fillNumeric, hloc]
  · rw [avg_rating_normalize]
    have hc0 : hasCoordsSpec { r with totalScore := some 0 } = true := by
      rw [hasCoordsSpec_eq_true_iff]
      exact ⟨a, b, hloc⟩
    simp [knownPosRatings, knownRatings, mean?, List.filter_cons, List.filterMap_cons, hc0]

/-- Witness for C9 at the concrete record `rawR0`'s shape. -/
theorem C9_witness :
    normalize [{ rawR0 with totalScore := some 0 }]
        = normalize [{ rawR0 with totalScore := none }] ∧
      avg_rating (normalize [{ rawR0 with totalScore := some 0 }]) = none ∧
      get_color 0 = "#e74c3c" :=
  C9_zero_rating_indistinguishable rawR0 (by rfl)

end MarketIntel
